import Mathlib

/-!
Verification of the QML language-server adapter
(`src/solidlsp/language_servers/qml_language_server.py`) against its
specification.  The adapter's own code is embedded faithfully below;
the few parts of the shared core client that the claims touch (the
dispatch table, the initialization state machine's outcome, and the
query-facade gating) are not part of the two source files and are
modelled from the spec, each marked `Modelled from the spec:` in its
doc comment.
-/

namespace QmlLs

/-! ### POSIX path helpers (`os.path` on a POSIX system) -/

/-- `os.path.isabs` on POSIX: a path is absolute iff it starts with `/`. -/
def os_path_isabs (p : String) : Bool :=
  match p.data with
  | '/' :: _ => true
  | _ => false

/-- Whether a string's last character is `/`. -/
def last_char_is_sep (a : String) : Bool :=
  match a.data.getLast? with
  | some '/' => true
  | _ => false

/-- `os.path.join a b` on POSIX for two components: if `b` is absolute the
result is `b`; otherwise `b` is appended to `a`, inserting `/` unless `a`
is empty or already ends with `/`. -/
def os_path_join (a b : String) : String :=
  if os_path_isabs b then b
  else if a = "" || last_char_is_sep a then a ++ b
  else a ++ "/" ++ b

/-- `os.path.basename` on POSIX: everything after the last `/`. -/
def os_path_basename (p : String) : String :=
  ((p.splitOn "/").getLast?).getD ""

/-! ### The qmlls binary probe -/

/-- The facts about the environment that `subprocess.run(["qmlls", "--help"])`
depends on: whether the binary is on the search path (absence raises
`FileNotFoundError`), and the exit code and standard output of the
invocation when it is. -/
structure QmllsEnv where
  onSearchPath : Bool
  returncode : Int
  stdout : String

/-- The error taxonomy of the spec's section 7 (the members the claims
mention). -/
inductive LsErr where
  | startupError
  | handshakeError
  | serverDied
deriving DecidableEq

/-- Python's `str.strip()`: drops whitespace from both ends. -/
def py_strip (s : String) : String :=
  String.mk (((s.data.dropWhile Char.isWhitespace).reverse.dropWhile
    Char.isWhitespace).reverse)

/-- Embedding of `QmlLanguageServer._get_qmlls_version`: runs
`qmlls --help`; on `FileNotFoundError` returns `None`; on exit code 0
returns `result.stdout.strip() or "qmlls available"`; otherwise falls
through to `None`. -/
def get_qmlls_version (env : QmllsEnv) : Option String :=
  if env.onSearchPath then
    if env.returncode = 0 then
      some (if py_strip env.stdout = "" then "qmlls available" else py_strip env.stdout)
    else none
  else none

/-- Embedding of `QmlLanguageServer._setup_runtime_dependency`: raises
`RuntimeError` (the spec's StartupError) when the probe's result is falsy
(`None` or the empty string), else returns `True`. -/
def setup_runtime_dependency (env : QmllsEnv) : Except LsErr Bool :=
  match get_qmlls_version env with
  | none => .error .startupError
  | some v => if v = "" then .error .startupError else .ok true

/-! ### The constructor's launch specification -/

/-- The `ls_specific_settings` entries the constructor reads (each `.get`
of a missing key yields `None`; `none` models that). -/
structure QmlSettings where
  build_dir : Option String := none
  import_paths : Option (List String) := none
  use_environment_import_paths : Bool := false
  no_cmake_calls : Bool := false
  doc_dir : Option String := none

/-- The path adjustment applied to each configured path in `__init__`:
left alone when absolute, otherwise joined onto the repository root. -/
def resolve_against (root p : String) : String :=
  if os_path_isabs p then p else os_path_join root p

/-- Embedding of the command-list construction in
`QmlLanguageServer.__init__` (lines 71-99): starts from `["qmlls"]` and
extends it per setting, in source order, skipping falsy settings
(Python truthiness: `None`, `""` and `[]` are falsy). -/
def build_cmd (s : QmlSettings) (root : String) : List String :=
  let cmd : List String := ["qmlls"]
  let cmd := match s.build_dir with
    | some bd => if bd = "" then cmd else cmd ++ ["--build-dir", resolve_against root bd]
    | none => cmd
  let cmd := match s.import_paths with
    | some ps =>
        if ps = [] then cmd
        else ps.foldl (fun c p => c ++ ["-I", resolve_against root p]) cmd
    | none => cmd
  let cmd := if s.use_environment_import_paths then cmd ++ ["-E"] else cmd
  let cmd := if s.no_cmake_calls then cmd ++ ["--no-cmake-calls"] else cmd
  let cmd := match s.doc_dir with
    | some dd => if dd = "" then cmd else cmd ++ ["-d", resolve_against root dd]
    | none => cmd
  cmd

/-- `ProcessLaunchInfo(cmd=cmd, cwd=repository_root_path)`: the launch
specification handed to the core client. -/
structure ProcessLaunchInfo where
  cmd : List String
  cwd : String
deriving DecidableEq

/-- Embedding of `QmlLanguageServer.__init__`: the dependency check runs
first (line 69) and its `RuntimeError` propagates before any launch
specification exists; otherwise the command list is built and handed to
the superclass as `ProcessLaunchInfo(cmd, cwd=repository_root_path)`. -/
def qml_constructor_launch (env : QmllsEnv) (s : QmlSettings) (root : String) :
    Except LsErr ProcessLaunchInfo :=
  match setup_runtime_dependency env with
  | .error e => .error e
  | .ok _ => .ok { cmd := build_cmd s root, cwd := root }

/-! ### `pathlib.Path(...).as_uri()` -/

/-- One hexadecimal digit, upper case, as `urllib.parse.quote` prints it. -/
def hexDigit (n : Nat) : Char :=
  (['0', '1', '2', '3', '4', '5', '6', '7', '8', '9',
    'A', 'B', 'C', 'D', 'E', 'F']).getD n '0'

/-- `%XX` escape of one byte. -/
def percentEncodeByte (b : UInt8) : String :=
  String.mk ['%', hexDigit (b.toNat / 16), hexDigit (b.toNat % 16)]

/-- The characters `urllib.parse.quote` leaves unescaped with its default
`safe="/"`: ASCII letters and digits, `_.-~`, and `/`. -/
def urlquoteSafe (c : Char) : Bool :=
  c.isAlphanum || c = '_' || c = '.' || c = '-' || c = '~' || c = '/'

/-- `urllib.parse.quote` with `safe="/"`: percent-encodes every UTF-8 byte
outside the safe set. -/
def urlquote (s : String) : String :=
  s.toUTF8.toList.foldl
    (fun acc b =>
      if b.toNat < 128 && urlquoteSafe (Char.ofNat b.toNat) then
        acc.push (Char.ofNat b.toNat)
      else acc ++ percentEncodeByte b)
    ""

/-- `str(pathlib.PurePosixPath(p))`: drops empty and `.` segments, keeps a
root of `//` exactly when the path starts with exactly two slashes, and
renders the empty result as `.`. -/
def posix_path_str (p : String) : String :=
  let parts := (p.splitOn "/").filter (fun seg => seg != "" && seg != ".")
  let root :=
    if p.startsWith "//" && !(p.startsWith "///") then "//"
    else if p.startsWith "/" then "/"
    else ""
  let joined := root ++ String.intercalate "/" parts
  if joined = "" then "." else joined

/-- `pathlib.Path(p).as_uri()` on POSIX: `"file://"` followed by the quoted
normalized path. -/
def path_as_uri (p : String) : String :=
  "file://" ++ urlquote (posix_path_str p)

/-! ### The initialize params (`_get_initialize_params`) -/

structure SymbolKindCapability where
  valueSet : List Nat
deriving DecidableEq

structure DocumentSymbolCapability where
  dynamicRegistration : Bool
  hierarchicalDocumentSymbolSupport : Bool
  symbolKind : SymbolKindCapability
deriving DecidableEq

structure SynchronizationCapability where
  didSave : Bool
  dynamicRegistration : Bool
deriving DecidableEq

structure DefinitionCapability where
  dynamicRegistration : Bool
deriving DecidableEq

structure TextDocumentCapabilities where
  synchronization : SynchronizationCapability
  definition : DefinitionCapability
  documentSymbol : DocumentSymbolCapability
deriving DecidableEq

structure DidChangeConfigurationCapability where
  dynamicRegistration : Bool
deriving DecidableEq

structure WorkspaceCapabilities where
  workspaceFolders : Bool
  didChangeConfiguration : DidChangeConfigurationCapability
deriving DecidableEq

structure ClientCapabilities where
  textDocument : TextDocumentCapabilities
  workspace : WorkspaceCapabilities
deriving DecidableEq

structure WorkspaceFolder where
  uri : String
  name : String
deriving DecidableEq

structure InitializeParams where
  locale : String
  capabilities : ClientCapabilities
  processId : Nat
  rootPath : String
  rootUri : String
  workspaceFolders : List WorkspaceFolder
deriving DecidableEq

/-- `list(range(a, b))`. -/
def py_range (a b : Nat) : List Nat := (List.range (b - a)).map (a + ·)

/-- Embedding of `QmlLanguageServer._get_initialize_params` (lines
104-134); `pid` stands for `os.getpid()`. -/
def get_initialize_params (pid : Nat) (repository_absolute_path : String) :
    InitializeParams :=
  let root_uri := path_as_uri repository_absolute_path
  { locale := "en"
    capabilities :=
      { textDocument :=
          { synchronization := { didSave := true, dynamicRegistration := true }
            definition := { dynamicRegistration := true }
            documentSymbol :=
              { dynamicRegistration := true
                hierarchicalDocumentSymbolSupport := true
                symbolKind := { valueSet := py_range 1 27 } } }
        workspace :=
          { workspaceFolders := true
            didChangeConfiguration := { dynamicRegistration := true } } }
    processId := pid
    rootPath := repository_absolute_path
    rootUri := root_uri
    workspaceFolders :=
      [{ uri := root_uri, name := os_path_basename repository_absolute_path }] }

/-! ### The startup sequence (`_start_server`) -/

/-- The externally visible actions `_start_server` performs, in order:
handler registrations on the dispatch table, starting the child process,
the `initialize` request, and the `initialized` notification. -/
inductive StartAction where
  | registerRequestHandler (method : String)
  | registerNotificationHandler (method : String)
  | processStart
  | sendInitializeRequest
  | sendInitializedNotification
deriving DecidableEq

/-- The part of the `initialize` response the startup sequence inspects:
the set of keys of its `capabilities` object. -/
structure InitializeResult where
  capabilitiesKeys : List String

/-- Embedding of `QmlLanguageServer._start_server` (lines 136-162) run
against a server whose `initialize` response is `resp`: the list of
actions performed, and whether the capability assertion
(`"textDocumentSync" in init_response["capabilities"]`, line 160)
passed.  When the assertion fails, `AssertionError` propagates and the
`initialized` notification is never sent. -/
def start_server_trace (resp : InitializeResult) : List StartAction × Bool :=
  let pre : List StartAction :=
    [.registerRequestHandler "client/registerCapability",
     .registerNotificationHandler "window/logMessage",
     .registerNotificationHandler "$/progress",
     .registerNotificationHandler "textDocument/publishDiagnostics",
     .processStart,
     .sendInitializeRequest]
  if "textDocumentSync" ∈ resp.capabilitiesKeys then
    (pre ++ [.sendInitializedNotification], true)
  else (pre, false)

/-! ### Modelled core behaviour (the shared client is not among the two
source files; these definitions follow the spec's words) -/

/-- The spec's ConnectionState enum (section 3). -/
inductive ConnectionState where
  | created
  | starting
  | initializing
  | ready
  | shuttingDown
  | terminated (e : LsErr)
deriving DecidableEq

/-- Modelled from the spec: the Initialization State Machine's outcome of
the handshake (sections 4.5 and 7) — Ready when the capability validation
passes, Terminated(HandshakeError) when the initialize response lacks a
protocol-required field (the connection is torn down). -/
def startup_state (resp : InitializeResult) : ConnectionState :=
  if (start_server_trace resp).2 then .ready else .terminated .handshakeError

/-- The notification methods registered in a list of startup actions, in
registration order. -/
def notification_handlers (tr : List StartAction) : List String :=
  tr.filterMap fun a =>
    match a with
    | .registerNotificationHandler m => some m
    | _ => none

/-- Modelled from the spec: the Dispatch Table (section 4.4) — an inbound
notification is handled exactly when a handler is registered for its
method at that moment. -/
def dispatch_handles (tr : List StartAction) (method : String) : Bool :=
  (notification_handlers tr).contains method

/-- The actions performed strictly before the `initialize` request is
sent (the moment from which the server may legally answer or push
notifications). -/
def actions_before_handshake (tr : List StartAction) : List StartAction :=
  tr.takeWhile (fun a => a != .sendInitializeRequest)

/-- Modelled from the spec: the Semantic Query Facade (sections 4.5-4.6)
is unblocked only once the state machine has sent the `initialized`
notification. -/
def facade_unblocked (tr : List StartAction) : Bool :=
  tr.contains .sendInitializedNotification

/-! ### Directory filtering -/

/-- Embedding of `QmlLanguageServer.is_ignored_dirname` (lines 23-25):
the superclass decision — the superclass lives outside the two source
files and is abstracted as the predicate `sup` — or membership of the
name in `["build", "node_modules"]`. -/
def is_ignored_dirname (sup : String → Bool) (dirname : String) : Bool :=
  sup dirname || (["build", "node_modules"].contains dirname)

/-! ### The launch arguments as the spec describes them, setting by
setting; `cmd_per_claim` is the spec-side characterization to be compared
with `build_cmd` (which follows the source). -/

/-- `build_dir` contributes `--build-dir <path>` when truthy, else nothing. -/
def build_dir_args (root : String) : Option String → List String
  | some bd => if bd = "" then [] else ["--build-dir", resolve_against root bd]
  | none => []

/-- Each entry of `import_paths` contributes `-I <path>`. -/
def import_path_args (root : String) : Option (List String) → List String
  | some ps => ps.foldr (fun p acc => ["-I", resolve_against root p] ++ acc) []
  | none => []

/-- A truthy `use_environment_import_paths` contributes `-E`. -/
def env_import_args : Bool → List String
  | true => ["-E"]
  | false => []

/-- A truthy `no_cmake_calls` contributes `--no-cmake-calls`. -/
def no_cmake_args : Bool → List String
  | true => ["--no-cmake-calls"]
  | false => []

/-- `doc_dir` contributes `-d <path>` when truthy, else nothing. -/
def doc_dir_args (root : String) : Option String → List String
  | some dd => if dd = "" then [] else ["-d", resolve_against root dd]
  | none => []

/-- The command list as the spec's words describe it: the executable
`qmlls` followed by each setting's contribution in documented order. -/
def cmd_per_claim (s : QmlSettings) (root : String) : List String :=
  ["qmlls"] ++ build_dir_args root s.build_dir
    ++ import_path_args root s.import_paths
    ++ env_import_args s.use_environment_import_paths
    ++ no_cmake_args s.no_cmake_calls
    ++ doc_dir_args root s.doc_dir

/-! ### Helper lemmas -/

lemma foldl_append_extend (f : String → List String) (ps : List String) :
    ∀ init : List String,
      ps.foldl (fun c p => c ++ f p) init
        = init ++ ps.foldr (fun p acc => f p ++ acc) [] := by
  induction ps with
  | nil => intro init; simp
  | cons p ps ih => intro init; simp [ih, List.append_assoc]

lemma build_cmd_eq_cmd_per_claim (s : QmlSettings) (root : String) :
    build_cmd s root = cmd_per_claim s root := by
  rcases s with ⟨bd, ips, ue, nc, dd⟩
  simp only [build_cmd, cmd_per_claim]
  cases bd <;> cases ips <;> cases ue <;> cases nc <;> cases dd <;>
    simp [build_dir_args, import_path_args, env_import_args, no_cmake_args,
      doc_dir_args, foldl_append_extend, List.append_assoc] <;>
    (try intro h) <;>
    (try subst h) <;>
    (try split_ifs) <;>
    simp_all [List.append_assoc]

lemma version_some_ne_empty (env : QmllsEnv) (v : String)
    (hv : get_qmlls_version env = some v) : v ≠ "" := by
  unfold get_qmlls_version at hv
  split at hv
  · split at hv
    · rw [Option.some_inj] at hv
      subst hv
      split
      · decide
      · assumption
    · exact absurd hv (by simp)
  · exact absurd hv (by simp)

/-! ### The claims -/

/-- Claim C1: all four default handlers (the `client/registerCapability`
request handler and the `window/logMessage`, `$/progress` and
`textDocument/publishDiagnostics` notification handlers) are registered
strictly before the `initialize` request is sent, so a server-pushed
notification arriving before the `initialize` response is dispatched to
a registered handler, and the connection still reaches Ready. -/
theorem default_handlers_before_handshake (resp : InitializeResult)
    (h : "textDocumentSync" ∈ resp.capabilitiesKeys) :
    (StartAction.registerRequestHandler "client/registerCapability" ∈
        actions_before_handshake (start_server_trace resp).1) ∧
    (StartAction.registerNotificationHandler "window/logMessage" ∈
        actions_before_handshake (start_server_trace resp).1) ∧
    (StartAction.registerNotificationHandler "$/progress" ∈
        actions_before_handshake (start_server_trace resp).1) ∧
    (StartAction.registerNotificationHandler "textDocument/publishDiagnostics" ∈
        actions_before_handshake (start_server_trace resp).1) ∧
    dispatch_handles (actions_before_handshake (start_server_trace resp).1)
        "window/logMessage" = true ∧
    startup_state resp = .ready := by
  unfold startup_state start_server_trace
  rw [if_pos h]
  decide

/-- Witness for C1 at a response that carries the required capability. -/
theorem default_handlers_before_handshake_check :
    (StartAction.registerRequestHandler "client/registerCapability" ∈
        actions_before_handshake (start_server_trace ⟨["textDocumentSync"]⟩).1) ∧
    (StartAction.registerNotificationHandler "window/logMessage" ∈
        actions_before_handshake (start_server_trace ⟨["textDocumentSync"]⟩).1) ∧
    (StartAction.registerNotificationHandler "$/progress" ∈
        actions_before_handshake (start_server_trace ⟨["textDocumentSync"]⟩).1) ∧
    (StartAction.registerNotificationHandler "textDocument/publishDiagnostics" ∈
        actions_before_handshake (start_server_trace ⟨["textDocumentSync"]⟩).1) ∧
    dispatch_handles (actions_before_handshake (start_server_trace ⟨["textDocumentSync"]⟩).1)
        "window/logMessage" = true ∧
    startup_state ⟨["textDocumentSync"]⟩ = .ready :=
  default_handlers_before_handshake ⟨["textDocumentSync"]⟩ (by decide)

/-- Claim C2: every startup run that reaches Ready has sent exactly one
`initialize` request and exactly one `initialized` notification, the
request strictly before the notification, and the query facade is not
unblocked by any prefix of the run that lacks either of the two. -/
theorem handshake_exactly_once_in_order (resp : InitializeResult)
    (h : startup_state resp = .ready) :
    ((start_server_trace resp).1.count .sendInitializeRequest = 1) ∧
    ((start_server_trace resp).1.count .sendInitializedNotification = 1) ∧
    (StartAction.sendInitializeRequest ∈
      (start_server_trace resp).1.takeWhile
        (fun a => a != .sendInitializedNotification)) ∧
    (∀ k : Nat,
      facade_unblocked ((start_server_trace resp).1.take k) = true →
        StartAction.sendInitializeRequest ∈ (start_server_trace resp).1.take k ∧
        StartAction.sendInitializedNotification ∈ (start_server_trace resp).1.take k) := by
  have hc : "textDocumentSync" ∈ resp.capabilitiesKeys := by
    by_contra hn
    unfold startup_state start_server_trace at h
    rw [if_neg hn] at h
    exact absurd h (by decide)
  unfold start_server_trace
  rw [if_pos hc]
  refine ⟨by decide, by decide, by decide, ?_⟩
  intro k hk
  rcases Nat.lt_or_ge k 7 with hlt | hge
  · interval_cases k <;> revert hk <;> decide
  · rw [List.take_of_length_le (le_trans (by decide) hge)]
    exact ⟨by decide, by decide⟩

/-- Witness for C2 at a response that carries the required capability. -/
theorem handshake_exactly_once_in_order_check :
    ((start_server_trace ⟨["textDocumentSync"]⟩).1.count .sendInitializeRequest = 1) ∧
    ((start_server_trace ⟨["textDocumentSync"]⟩).1.count .sendInitializedNotification = 1) ∧
    (StartAction.sendInitializeRequest ∈
      (start_server_trace ⟨["textDocumentSync"]⟩).1.takeWhile
        (fun a => a != .sendInitializedNotification)) ∧
    (∀ k : Nat,
      facade_unblocked ((start_server_trace ⟨["textDocumentSync"]⟩).1.take k) = true →
        StartAction.sendInitializeRequest ∈
          (start_server_trace ⟨["textDocumentSync"]⟩).1.take k ∧
        StartAction.sendInitializedNotification ∈
          (start_server_trace ⟨["textDocumentSync"]⟩).1.take k) :=
  handshake_exactly_once_in_order ⟨["textDocumentSync"]⟩ (by decide)

/-- Claim C3: when the `initialize` response has no `textDocumentSync` key
under `capabilities`, the startup run ends Terminated(HandshakeError),
the `initialized` notification is never sent, and Ready is not reached. -/
theorem missing_sync_capability_fails_handshake (resp : InitializeResult)
    (h : "textDocumentSync" ∉ resp.capabilitiesKeys) :
    startup_state resp = .terminated .handshakeError ∧
    StartAction.sendInitializedNotification ∉ (start_server_trace resp).1 ∧
    ¬ startup_state resp = .ready := by
  unfold startup_state start_server_trace
  rw [if_neg h]
  decide

/-- Witness for C3 at a response with an empty capabilities object. -/
theorem missing_sync_capability_fails_handshake_check :
    startup_state ⟨[]⟩ = .terminated .handshakeError ∧
    StartAction.sendInitializedNotification ∉ (start_server_trace ⟨[]⟩).1 ∧
    ¬ startup_state ⟨[]⟩ = .ready :=
  missing_sync_capability_fails_handshake ⟨[]⟩ (by decide)

/-- Claim C4: the binary probe is total — when `qmlls` is not on the
search path it returns `none` instead of raising — and then construction
fails with the single startup error before any launch specification
exists; when the probe finds `qmlls` (returns a version), construction
passes the dependency check and yields the launch specification. -/
theorem probe_total_and_startup_error (env : QmllsEnv) (s : QmlSettings)
    (root : String) :
    (env.onSearchPath = false →
      get_qmlls_version env = none ∧
      qml_constructor_launch env s root = .error .startupError) ∧
    (∀ v, get_qmlls_version env = some v →
      qml_constructor_launch env s root = .ok { cmd := build_cmd s root, cwd := root }) := by
  constructor
  · intro h
    have hv : get_qmlls_version env = none := by
      simp [get_qmlls_version, h]
    exact ⟨hv, by simp [qml_constructor_launch, setup_runtime_dependency, hv]⟩
  · intro v hv
    have hne : v ≠ "" := version_some_ne_empty env v hv
    simp [qml_constructor_launch, setup_runtime_dependency, hv, hne]

/-- Witness for C4: an absent binary, and a present one. -/
theorem probe_total_and_startup_error_check :
    (get_qmlls_version ⟨false, 0, ""⟩ = none ∧
      qml_constructor_launch ⟨false, 0, ""⟩ {} "/repo" = .error .startupError) ∧
    qml_constructor_launch ⟨true, 0, "qmlls 6.5"⟩ {} "/repo" =
      .ok { cmd := build_cmd {} "/repo", cwd := "/repo" } :=
  ⟨(probe_total_and_startup_error ⟨false, 0, ""⟩ {} "/repo").1 rfl,
   (probe_total_and_startup_error ⟨true, 0, "qmlls 6.5"⟩ {} "/repo").2
      "qmlls 6.5" (by decide)⟩

/-- Claim C5: every launch specification the constructor produces starts
with the executable `qmlls`, uses the repository root as working
directory, and its arguments are exactly the documented per-setting
contributions in order (`--build-dir`, `-I` per import path, `-E`,
`--no-cmake-calls`, `-d`, relative paths joined onto the root, falsy
settings contributing nothing). -/
theorem launch_spec_matches_documented_args (env : QmllsEnv) (s : QmlSettings)
    (root : String) (pl : ProcessLaunchInfo)
    (h : qml_constructor_launch env s root = .ok pl) :
    pl.cmd = cmd_per_claim s root ∧
    pl.cmd.head? = some "qmlls" ∧
    pl.cwd = root := by
  unfold qml_constructor_launch at h
  rcases hs : setup_runtime_dependency env with e | b
  · rw [hs] at h
    exact absurd h (by simp)
  · rw [hs] at h
    rw [Except.ok.injEq] at h
    subst h
    refine ⟨build_cmd_eq_cmd_per_claim s root, ?_, rfl⟩
    rw [build_cmd_eq_cmd_per_claim s root]
    rfl

/-- Witness for C5 at a fully populated settings dictionary. -/
theorem launch_spec_matches_documented_args_check :
    (ProcessLaunchInfo.mk
        ["qmlls", "--build-dir", "/repo/b", "-I", "/repo/i1", "-I", "/i2",
         "-E", "--no-cmake-calls", "-d", "/d"] "/repo").cmd =
      cmd_per_claim ⟨some "b", some ["i1", "/i2"], true, true, some "/d"⟩ "/repo" ∧
    (ProcessLaunchInfo.mk
        ["qmlls", "--build-dir", "/repo/b", "-I", "/repo/i1", "-I", "/i2",
         "-E", "--no-cmake-calls", "-d", "/d"] "/repo").cmd.head? = some "qmlls" ∧
    (ProcessLaunchInfo.mk
        ["qmlls", "--build-dir", "/repo/b", "-I", "/repo/i1", "-I", "/i2",
         "-E", "--no-cmake-calls", "-d", "/d"] "/repo").cwd = "/repo" :=
  launch_spec_matches_documented_args ⟨true, 0, "v"⟩
    ⟨some "b", some ["i1", "/i2"], true, true, some "/d"⟩ "/repo" _ (by rfl)

/-- Claim C6: the initialize-params builder sets `rootPath` to the
repository path, `rootUri` to its file URI, `workspaceFolders` to the
single folder with that URI and the path's basename as name, and
`processId` to the current process id. -/
theorem init_params_root_fields (pid : Nat) (path : String) :
    (get_initialize_params pid path).rootPath = path ∧
    (get_initialize_params pid path).rootUri = path_as_uri path ∧
    (get_initialize_params pid path).workspaceFolders =
      [{ uri := path_as_uri path, name := os_path_basename path }] ∧
    (get_initialize_params pid path).processId = pid :=
  ⟨rfl, rfl, rfl, rfl⟩

/-- Claim C8: the directory-ignore override returns true for `build` and
`node_modules`, and it returns true whenever the superclass does — it
only extends the ignored set. -/
theorem ignored_dirnames_extend_superclass (sup : String → Bool) (d : String) :
    is_ignored_dirname sup "build" = true ∧
    is_ignored_dirname sup "node_modules" = true ∧
    (sup d = true → is_ignored_dirname sup d = true) := by
  refine ⟨by simp [is_ignored_dirname], by simp [is_ignored_dirname],
    fun h => by simp [is_ignored_dirname, h]⟩

/-- Witness for C8: the superclass decision propagates at a name the
override itself would not ignore. -/
theorem ignored_dirnames_extend_superclass_check :
    is_ignored_dirname (fun _ => true) "generated" = true :=
  (ignored_dirnames_extend_superclass (fun _ => true) "generated").2.2 rfl

/-- Claim C9: the version probe yields `none` when the binary is absent
or exits nonzero, substitutes the fixed string `"qmlls available"` for
empty output on success, and never yields the empty string. -/
theorem version_probe_never_empty (env : QmllsEnv) :
    (env.onSearchPath = false → get_qmlls_version env = none) ∧
    (env.returncode ≠ 0 → get_qmlls_version env = none) ∧
    (env.onSearchPath = true → env.returncode = 0 → py_strip env.stdout = "" →
      get_qmlls_version env = some "qmlls available") ∧
    (∀ v, get_qmlls_version env = some v → v ≠ "") := by
  refine ⟨fun h => by simp [get_qmlls_version, h],
    fun h => by simp [get_qmlls_version, h],
    fun h1 h2 h3 => by simp [get_qmlls_version, h1, h2, h3],
    fun v hv => version_some_ne_empty env v hv⟩

/-- Witness for C9: absent binary, failing invocation, and blank output. -/
theorem version_probe_never_empty_check :
    get_qmlls_version ⟨false, 0, "x"⟩ = none ∧
    get_qmlls_version ⟨true, 3, "x"⟩ = none ∧
    get_qmlls_version ⟨true, 0, " "⟩ = some "qmlls available" ∧
    "qmlls available" ≠ "" :=
  ⟨(version_probe_never_empty ⟨false, 0, "x"⟩).1 rfl,
   (version_probe_never_empty ⟨true, 3, "x"⟩).2.1 (by decide),
   (version_probe_never_empty ⟨true, 0, " "⟩).2.2.1 rfl rfl (by decide),
   (version_probe_never_empty ⟨true, 0, " "⟩).2.2.2 "qmlls available" (by decide)⟩

/-- Claim C10: the announced client capabilities declare hierarchical
document-symbol support and didSave synchronization, and the
documentSymbol symbolKind valueSet is exactly the integers 1 through 26. -/
theorem client_capabilities_fixed (pid : Nat) (path : String) :
    (get_initialize_params pid path).capabilities.textDocument.documentSymbol.hierarchicalDocumentSymbolSupport
      = true ∧
    (get_initialize_params pid path).capabilities.textDocument.synchronization.didSave
      = true ∧
    (get_initialize_params pid path).capabilities.textDocument.documentSymbol.symbolKind.valueSet
      = [1, 2, 3, 4, 5, 6, 7, 8, 9, 10, 11, 12, 13, 14, 15, 16, 17, 18, 19,
         20, 21, 22, 23, 24, 25, 26] := by
  refine ⟨rfl, rfl, ?_⟩
  show py_range 1 27 = _
  decide

end QmlLs
